import Mathlib

/-!
Shallow embedding of `src/bot.py` (DA-Inventory-Discord-Bot): a Discord bot
exposing one slash command `/callapi` guarded by a role check, plus a FastAPI
liveness endpoint and startup logic.  Python values that matter to the claims
(JSON fields that may be null, truthiness of environment strings) are modelled
explicitly; the network and the Discord gateway are modelled as an environment
value describing the outcome of the single outbound HTTP GET.
-/

/-- A Python value appearing in the parsed JSON body: a string or None. -/
inductive PyVal where
  | vstr (s : String)
  | vnone
  deriving DecidableEq, Repr

/-- How Python renders a value inside an f-string: strings verbatim, None as "None". -/
def pyValRender : PyVal → String
  | .vstr s => s
  | .vnone => "None"

/-- The parsed JSON object body, as an association list (first binding wins). -/
abbrev PyDict := List (String × PyVal)

/-- `data.get(key, default)`: the stored value when the key is present (even when
it maps to None), the default only when the key is absent. -/
def dictGet (d : PyDict) (key : String) (dflt : PyVal) : PyVal :=
  match List.find? (fun p => p.1 == key) d with
  | some p => p.2
  | none => dflt

/-- `ALLOWED_ROLE_IDS` from bot.py line 18. -/
def allowedRoleIds : List String :=
  ["1405292890049216543", "987654321098765432"]

/-- Python set intersection is non-empty: some element of `a` occurs in `b`. -/
def intersects (a b : List String) : Bool :=
  a.any (fun x => b.contains x)

/-- A Discord embed as built in the 200 branch: title, description, colour,
ordered (name, value) fields, footer text. -/
structure EmbedData where
  title : String
  description : String
  colour : String
  fields : List (String × String)
  footer : String
  deriving DecidableEq, Repr

/-- One reply sent back to the originating interaction. -/
inductive Reply where
  /-- `interaction.response.send_message(content, ephemeral=flag)` -/
  | channelMessage (content : String) (ephemeral : Bool)
  /-- `interaction.followup.send(embed=e)` -/
  | followupEmbed (e : EmbedData)
  /-- `interaction.followup.send(content)` -/
  | followupText (content : String)
  deriving DecidableEq, Repr

/-- The outcome of the single `session.get(API_ENDPOINT)` exchange, decided by
the environment: a completed HTTP response with a parsed JSON body, an
`aiohttp.ClientError`, or any other exception raised inside the `try` block. -/
inductive ApiBehavior where
  | respond (status : Nat) (body : PyDict)
  | raiseClientError
  | raiseUnexpected
  deriving Repr

/-- A Python exception class relevant to the handler. -/
inductive PyExc where
  | clientError
  | unexpected
  deriving DecidableEq, Repr

/-- Everything the handler does after the authorization gate. -/
structure HandlerResult where
  /-- number of outbound API calls issued -/
  apiCalls : Nat
  /-- whether `interaction.response.defer(thinking=True)` ran -/
  deferredAck : Bool
  /-- the replies sent, in order -/
  replies : List Reply
  deriving DecidableEq, Repr

/-- The body of the `try` block (bot.py lines 114-130): issue the GET, then on
status 200 build the quote embed, otherwise report the status code; exceptions
escape as `Except.error`. -/
def tryBlock (api : ApiBehavior) : Except PyExc (List Reply) :=
  match api with
  | .respond status body =>
      if status == 200 then
        .ok [.followupEmbed
          { title := "API Call Successful!"
            description := "Here is a random quote from the API:"
            colour := "green"
            fields :=
              [("Quote", "_" ++ pyValRender (dictGet body "content" (.vstr "N/A")) ++ "_"),
               ("Author", "- " ++ pyValRender (dictGet body "author" (.vstr "Unknown")))]
            footer := "Powered by Quotable API" }]
      else
        .ok [.followupText
          ("Error: The API returned a status code of `" ++ toString status ++ "`.")]
  | .raiseClientError => .error .clientError
  | .raiseUnexpected => .error .unexpected

/-- The `/callapi` handler `call_api_command` (bot.py lines 94-136): gate on the
role intersection, else defer, run the `try` block and catch
`aiohttp.ClientError` then `Exception`.  The result type `Except PyExc _`
records whether any exception propagates out of the handler. -/
def call_api_command (userRoleIds : List String) (api : ApiBehavior) :
    Except PyExc HandlerResult :=
  if !(intersects userRoleIds allowedRoleIds) then
    .ok { apiCalls := 0
          deferredAck := false
          replies := [.channelMessage
            "Sorry, you don\x27t have the required role to use this command." true] }
  else
    match tryBlock api with
    | .ok msgs =>
        .ok { apiCalls := 1, deferredAck := true, replies := msgs }
    | .error .clientError =>
        .ok { apiCalls := 1, deferredAck := true
              replies := [.followupText "An error occurred while trying to connect to the API."] }
    | .error .unexpected =>
        .ok { apiCalls := 1, deferredAck := true
              replies := [.followupText "An unexpected error occurred."] }

/-- A FastAPI route result: the HTTP status and the JSON object body.  FastAPI
returns a returned dict with status 200 by default. -/
structure HttpResponse where
  status : Nat
  body : List (String × String)
  deriving DecidableEq, Repr

/-- The health endpoint `root` (bot.py lines 77-80): a constant, it reads no
parameters and no state. -/
def root : HttpResponse :=
  { status := 200, body := [("status", "Bot is alive and listening!")] }

/-- Python truthiness of an optional environment string: absent and empty are
falsy, any non-empty string is truthy. -/
def pyTruthy : Option String → Bool
  | some s => !(s == "")
  | none => false

/-- What the `lifespan` startup phase does (bot.py lines 53-61). -/
inductive StartupOutcome where
  /-- `raise ValueError(msg)` before any task is created -/
  | raiseValueError (msg : String)
  /-- `loop.create_task(client.start(BOT_TOKEN))` ran -/
  | botTaskCreated
  deriving DecidableEq, Repr

/-- The `lifespan` startup phase: check the token, then create the bot task. -/
def lifespan_startup (botToken : Option String) : StartupOutcome :=
  if !(pyTruthy botToken) then
    .raiseValueError "DISCORD_BOT_TOKEN environment variable not found."
  else
    .botTaskCreated

/-- Which command-sync path `setup_hook` takes (bot.py lines 32-40). -/
inductive SyncPath where
  /-- `copy_global_to(guild)` plus `tree.sync(guild=guild)` -/
  | guildSync (gid : String)
  /-- `tree.sync()` with no guild argument -/
  | globalSync
  deriving DecidableEq, Repr

/-- `MyClient.setup_hook`: sync to the configured guild when `GUILD_ID` is
truthy, otherwise sync globally. -/
def setup_hook (guildId : Option String) : SyncPath :=
  if pyTruthy guildId then
    match guildId with
    | some g => .guildSync g
    | none => .globalSync
  else
    .globalSync

/-! ## Helper lemmas -/

/-- The handler never lets an exception escape: every invocation produces a
normal result, so the process keeps serving subsequent invocations. -/
theorem call_api_command_total (roles : List String) (api : ApiBehavior) :
    ∃ r : HandlerResult, call_api_command roles api = .ok r := by
  unfold call_api_command
  cases h : intersects roles allowedRoleIds
  · simp
  · simp
    cases htb : tryBlock api with
    | ok msgs => simp
    | error e => cases e <;> simp

/-! ## Claim theorems -/

/-- Claim C1: the handler issues an outbound API call iff the invoking users
role-id set intersects the configured authorized-role set; an empty
intersection yields exactly one ephemeral denial and no API call, a non-empty
one yields exactly one API call. -/
theorem callapi_authorization_gate (roles : List String) (api : ApiBehavior) :
    (intersects roles allowedRoleIds = false →
      call_api_command roles api =
        .ok { apiCalls := 0
              deferredAck := false
              replies := [.channelMessage
                "Sorry, you don\x27t have the required role to use this command." true] }) ∧
    (intersects roles allowedRoleIds = true →
      ∃ r, call_api_command roles api = .ok r ∧ r.apiCalls = 1) := by
  constructor
  · intro h
    simp [call_api_command, h]
  · intro h
    simp [call_api_command, h]
    cases htb : tryBlock api with
    | ok msgs => simp
    | error e => cases e <;> simp

/-- Closed witness for claim C1 at a role without permission and a role with
permission. -/
theorem callapi_authorization_gate_witness :
    call_api_command ["555"] ApiBehavior.raiseClientError =
      .ok { apiCalls := 0
            deferredAck := false
            replies := [.channelMessage
              "Sorry, you don\x27t have the required role to use this command." true] } ∧
    (∃ r, call_api_command ["1405292890049216543"] ApiBehavior.raiseClientError =
      .ok r ∧ r.apiCalls = 1) :=
  ⟨(callapi_authorization_gate ["555"] ApiBehavior.raiseClientError).1 (by decide),
   (callapi_authorization_gate ["1405292890049216543"] ApiBehavior.raiseClientError).2
     (by decide)⟩

/-- Claim C6: every invocation, in every outcome, is answered with exactly one
reply - never zero, never more than one. -/
theorem callapi_exactly_one_reply (roles : List String) (api : ApiBehavior) :
    ∃ r, call_api_command roles api = .ok r ∧ r.replies.length = 1 := by
  unfold call_api_command
  cases h : intersects roles allowedRoleIds
  · simp
  · simp
    cases htb : tryBlock api with
    | ok msgs =>
        cases api with
        | respond status body =>
            by_cases hs : (status == 200) = true <;>
              simp [tryBlock, hs] at htb <;> simp [← htb]
        | raiseClientError => simp [tryBlock] at htb
        | raiseUnexpected => simp [tryBlock] at htb
    | error e => cases e <;> simp

/-- Claim C7: the health endpoint returns status 200 with the fixed JSON body,
consulting no parameters and no state. -/
theorem root_health_ok :
    root.status = 200 ∧ root.body = [("status", "Bot is alive and listening!")] :=
  ⟨rfl, rfl⟩

/-- Claim C8: with no bot token configured, startup raises the error and the
bot connection task is never created. -/
theorem lifespan_no_token_no_bot :
    lifespan_startup none =
      .raiseValueError "DISCORD_BOT_TOKEN environment variable not found." ∧
    lifespan_startup none ≠ .botTaskCreated :=
  ⟨rfl, by decide⟩

/-- Claim C9: startup syncs the command set to the configured guild when a
guild id is configured (truthy), otherwise globally; the two paths are
exhaustive and exclusive, so exactly one is taken. -/
theorem setup_hook_sync_paths :
    (∀ g : String, (g == "") = false → setup_hook (some g) = .guildSync g) ∧
    setup_hook none = .globalSync ∧
    (∀ gid : Option String,
      (pyTruthy gid = true → ∃ g, gid = some g ∧ setup_hook gid = .guildSync g) ∧
      (pyTruthy gid = false → setup_hook gid = .globalSync)) := by
  refine ⟨?_, rfl, ?_⟩
  · intro g hg
    simp [setup_hook, pyTruthy, hg]
  · intro gid
    constructor
    · intro h
      cases gid with
      | none => simp [pyTruthy] at h
      | some g => exact ⟨g, rfl, by simp [setup_hook, h]⟩
    · intro h
      simp [setup_hook, h]

/-- Closed witness for claim C9 at a configured and an unconfigured guild id. -/
theorem setup_hook_sync_paths_witness :
    setup_hook (some "guild123") = SyncPath.guildSync "guild123" ∧
    setup_hook none = SyncPath.globalSync :=
  ⟨setup_hook_sync_paths.1 "guild123" (by decide), setup_hook_sync_paths.2.1⟩

/-- Helper: on an authorized invocation the handler defers, issues the call,
and maps the try-block outcome through the two except clauses. -/
theorem call_api_command_authorized (roles : List String) (api : ApiBehavior)
    (h : intersects roles allowedRoleIds = true) :
    call_api_command roles api =
      match tryBlock api with
      | .ok msgs => .ok { apiCalls := 1, deferredAck := true, replies := msgs }
      | .error .clientError =>
          .ok { apiCalls := 1, deferredAck := true
                replies := [.followupText "An error occurred while trying to connect to the API."] }
      | .error .unexpected =>
          .ok { apiCalls := 1, deferredAck := true
                replies := [.followupText "An unexpected error occurred."] } := by
  simp [call_api_command, h]

/-- Claim C2: on HTTP 200 the handler parses the JSON body, extracts `content`
with default N/A and `author` with default Unknown (defaults only when the key
is absent) and sends one formatted embed reply; body with no keys yields N/A
and Unknown, body with Hi and Bob yields Hi and Bob. -/
theorem callapi_success_formats_quote (roles : List String)
    (h : intersects roles allowedRoleIds = true) :
    (∀ body : PyDict,
      call_api_command roles (.respond 200 body) =
        .ok { apiCalls := 1
              deferredAck := true
              replies := [.followupEmbed
                { title := "API Call Successful!"
                  description := "Here is a random quote from the API:"
                  colour := "green"
                  fields :=
                    [("Quote", "_" ++ pyValRender (dictGet body "content" (PyVal.vstr "N/A")) ++ "_"),
                     ("Author", "- " ++ pyValRender (dictGet body "author" (PyVal.vstr "Unknown")))]
                  footer := "Powered by Quotable API" }] }) ∧
    (∀ (body : PyDict) (key : String) (dflt : PyVal),
      List.find? (fun p => p.1 == key) body = none → dictGet body key dflt = dflt) ∧
    call_api_command roles (.respond 200 []) =
      .ok { apiCalls := 1
            deferredAck := true
            replies := [.followupEmbed
              { title := "API Call Successful!"
                description := "Here is a random quote from the API:"
                colour := "green"
                fields := [("Quote", "_N/A_"), ("Author", "- Unknown")]
                footer := "Powered by Quotable API" }] } ∧
    call_api_command roles
        (.respond 200 [("content", PyVal.vstr "Hi"), ("author", PyVal.vstr "Bob")]) =
      .ok { apiCalls := 1
            deferredAck := true
            replies := [.followupEmbed
              { title := "API Call Successful!"
                description := "Here is a random quote from the API:"
                colour := "green"
                fields := [("Quote", "_Hi_"), ("Author", "- Bob")]
                footer := "Powered by Quotable API" }] } := by
  refine ⟨?_, ?_, ?_, ?_⟩
  · intro body
    rw [call_api_command_authorized roles _ h]
    rfl
  · intro body key dflt hfind
    simp [dictGet, hfind]
  · rw [call_api_command_authorized roles _ h]
    rfl
  · rw [call_api_command_authorized roles _ h]
    rfl

/-- Closed witness for claim C2 at an authorized role, on the empty body and
on the Hi and Bob body. -/
theorem callapi_success_formats_quote_witness :
    call_api_command ["987654321098765432"] (ApiBehavior.respond 200 []) =
      .ok { apiCalls := 1
            deferredAck := true
            replies := [.followupEmbed
              { title := "API Call Successful!"
                description := "Here is a random quote from the API:"
                colour := "green"
                fields := [("Quote", "_N/A_"), ("Author", "- Unknown")]
                footer := "Powered by Quotable API" }] } ∧
    call_api_command ["987654321098765432"]
        (ApiBehavior.respond 200 [("content", PyVal.vstr "Hi"), ("author", PyVal.vstr "Bob")]) =
      .ok { apiCalls := 1
            deferredAck := true
            replies := [.followupEmbed
              { title := "API Call Successful!"
                description := "Here is a random quote from the API:"
                colour := "green"
                fields := [("Quote", "_Hi_"), ("Author", "- Bob")]
                footer := "Powered by Quotable API" }] } :=
  ⟨(callapi_success_formats_quote ["987654321098765432"] (by decide)).2.2.1,
   (callapi_success_formats_quote ["987654321098765432"] (by decide)).2.2.2⟩

/-- Claim C3: on any non-200 status the handler sends exactly one followup
reply whose text contains the numeric status code, and no exception escapes. -/
theorem callapi_non200_reports_status (roles : List String) (status : Nat)
    (body : PyDict) (h : intersects roles allowedRoleIds = true)
    (hs : status ≠ 200) :
    call_api_command roles (.respond status body) =
      .ok { apiCalls := 1
            deferredAck := true
            replies := [.followupText
              ("Error: The API returned a status code of `" ++ toString status ++ "`.")] } ∧
    (∃ pre post : String,
      "Error: The API returned a status code of `" ++ toString status ++ "`." =
        pre ++ toString status ++ post) := by
  refine ⟨?_, "Error: The API returned a status code of `", "`.", rfl⟩
  rw [call_api_command_authorized roles _ h]
  simp [tryBlock, hs]

/-- Closed witness for claim C3 at an authorized role and status 500. -/
theorem callapi_non200_reports_status_witness :
    call_api_command ["987654321098765432"] (ApiBehavior.respond 500 []) =
      .ok { apiCalls := 1
            deferredAck := true
            replies := [.followupText "Error: The API returned a status code of `500`."] } ∧
    (∃ pre post : String,
      "Error: The API returned a status code of `500`." = pre ++ "500" ++ post) := by
  simpa using callapi_non200_reports_status ["987654321098765432"] 500 [] (by decide) (by decide)

/-- Claim C4: a network-level client error is caught; the handler sends exactly
one followup with the fixed connection-error message, and the handler keeps
producing normal results for every subsequent invocation. -/
theorem callapi_client_error_reported (roles : List String)
    (h : intersects roles allowedRoleIds = true) :
    call_api_command roles .raiseClientError =
      .ok { apiCalls := 1
            deferredAck := true
            replies := [.followupText "An error occurred while trying to connect to the API."] } ∧
    (∀ (roles2 : List String) (api2 : ApiBehavior),
      ∃ r2, call_api_command roles2 api2 = .ok r2) := by
  refine ⟨?_, call_api_command_total⟩
  rw [call_api_command_authorized roles _ h]
  rfl

/-- Closed witness for claim C4 at an authorized role. -/
theorem callapi_client_error_reported_witness :
    call_api_command ["1405292890049216543"] ApiBehavior.raiseClientError =
      .ok { apiCalls := 1
            deferredAck := true
            replies := [.followupText "An error occurred while trying to connect to the API."] } :=
  (callapi_client_error_reported ["1405292890049216543"] (by decide)).1

/-- Claim C5: any unexpected failure inside the handling (not a client error)
is caught broadly, reported with the fixed generic message, and swallowed; the
handler keeps producing normal results for every invocation. -/
theorem callapi_unexpected_error_swallowed (roles : List String)
    (h : intersects roles allowedRoleIds = true) :
    call_api_command roles .raiseUnexpected =
      .ok { apiCalls := 1
            deferredAck := true
            replies := [.followupText "An unexpected error occurred."] } ∧
    (∀ (roles2 : List String) (api2 : ApiBehavior),
      ∃ r2, call_api_command roles2 api2 = .ok r2) := by
  refine ⟨?_, call_api_command_total⟩
  rw [call_api_command_authorized roles _ h]
  rfl

/-- Closed witness for claim C5 at an authorized role. -/
theorem callapi_unexpected_error_swallowed_witness :
    call_api_command ["1405292890049216543"] ApiBehavior.raiseUnexpected =
      .ok { apiCalls := 1
            deferredAck := true
            replies := [.followupText "An unexpected error occurred."] } :=
  (callapi_unexpected_error_swallowed ["1405292890049216543"] (by decide)).1

/-- Claim C10: a key present but mapped to null bypasses the default: the
reply renders the Python value None, not N/A or Unknown. -/
theorem callapi_null_fields_render_none :
    call_api_command ["1405292890049216543"]
      (.respond 200 [("content", PyVal.vnone), ("author", PyVal.vnone)]) =
      .ok { apiCalls := 1
            deferredAck := true
            replies := [.followupEmbed
              { title := "API Call Successful!"
                description := "Here is a random quote from the API:"
                colour := "green"
                fields := [("Quote", "_None_"), ("Author", "- None")]
                footer := "Powered by Quotable API" }] } ∧
    ("_None_" : String) ≠ "_N/A_" ∧ ("- None" : String) ≠ "- Unknown" := by
  refine ⟨?_, by decide, by decide⟩
  rfl
